import Mathlib

/-!
Verification of the versioned knowledge-graph access layer
(`deeppavlov_kg`): a shallow embedding of the query builder
(`core/querymaker.py`), the ontology registry (`core/ontology.py`),
the versioned graph store (`core/graph.py`), the ingestion connector
(`connector/connect_to_zu.py`) and the secondary index (`core/index.py`),
together with theorems settling the specification claims about them.

Python dictionaries are modelled as association lists with Python's
insertion-order / overwrite-on-assignment semantics, Python exceptions as
`Except String`, and calls issued to the backing store as an explicit
trace of `DbCall` values.
-/

set_option autoImplicit false

namespace DeeppavlovKg

/-- Model of Python's `str.isalnum` character test (ASCII fragment). -/
def pyIsAlnum (c : Char) : Bool :=
  c.isAlphanum

/-- `querymaker.sanitize_alphanumeric`: removes characters which are not
letters, numbers or underscore (`"".join(char for char in input_value if
char.isalnum() or char == "_")`). -/
def sanitize_alphanumeric (input_value : String) : String :=
  String.mk (input_value.data.filter (fun char => pyIsAlnum char || char == '_'))

/-- `querymaker.sanitize_id`: removes characters which are not letters,
numbers, underscore or dash (`char.isalnum() or char in ["_","-"]`). -/
def sanitize_id (input_value : String) : String :=
  String.mk (input_value.data.filter (fun char => pyIsAlnum char || ['_', '-'].contains char))

/-- Python values as they occur in the property maps of this system. -/
inductive PyValue where
  | str (s : String)
  | int (n : Int)
  | bool (b : Bool)
  deriving DecidableEq, Repr

/-- `str(type(v))` for a runtime Python value. -/
def pyTypeStr : PyValue → String
  | .str _ => "<class \x27str\x27>"
  | .int _ => "<class \x27int\x27>"
  | .bool _ => "<class \x27bool\x27>"

/-- Python type objects accepted by `Neo4jOntologyConfig._type2str`. -/
inductive PyType where
  | str | int | float | bool | date | time | datetime
  deriving DecidableEq, Repr

/-- `Neo4jOntologyConfig._type2str` on a single type object: the string
`str(t)` stored as the declared property type. -/
def type2str : PyType → String
  | .str => "<class \x27str\x27>"
  | .int => "<class \x27int\x27>"
  | .float => "<class \x27float\x27>"
  | .bool => "<class \x27bool\x27>"
  | .date => "<class \x27datetime.date\x27>"
  | .time => "<class \x27datetime.time\x27>"
  | .datetime => "<class \x27datetime.datetime\x27>"

/-- Lookup in an association list modelling a Python `dict`
(first occurrence wins, as keys are unique in a `dict`). -/
def alookup {V : Type} (k : String) : List (String × V) → Option V
  | [] => none
  | (k', v) :: rest => if k = k' then some v else alookup k rest

/-- Python `dict` assignment `d[k] = v`: overwrite the first binding of `k`
in place, or append a new binding. -/
def dictInsert {V : Type} (d : List (String × V)) (k : String) (v : V) :
    List (String × V) :=
  match d with
  | [] => [(k, v)]
  | (k', v') :: rest =>
      if k' = k then (k', v) :: rest else (k', v') :: dictInsert rest k v

/-- Python `dict(pairs)` / dict comprehension: insert the pairs in order. -/
def dictOfList {V : Type} (l : List (String × V)) : List (String × V) :=
  l.foldl (fun d kv => dictInsert d kv.1 kv.2) []

/-- Python `d.update(e)`: assign every binding of `e` into `d` in order. -/
def dictUpdate {V : Type} (d e : List (String × V)) : List (String × V) :=
  e.foldl (fun acc kv => dictInsert acc kv.1 kv.2) d

/-- `querymaker.sanitize_dict_keys`: `{sanitize_alphanumeric(k): v}`. -/
def sanitize_dict_keys {V : Type} (input_value : List (String × V)) :
    List (String × V) :=
  dictOfList (input_value.map (fun kv => (sanitize_alphanumeric kv.1, kv.2)))

/-- `querymaker.match_relationship_cypher_query`: builds the relationship
MATCH fragment
`MATCH ({var_name_a})-[{var_name_r} {specify_kind} {...}]->({var_name_b})`
and the parameter dict with keys renamed to `{key}_{var_name_r}`.
`var_name_r` and a non-empty `relationship_kind` pass through
`sanitize_alphanumeric` and the filter keys through `sanitize_dict_keys`;
`var_name_a` and `var_name_b` are interpolated as given. -/
def match_relationship_cypher_query (var_name_a var_name_r : String)
    (relationship_kind : String)
    (rel_properties_filter : List (String × PyValue)) (var_name_b : String) :
    String × List (String × PyValue) :=
  let r := sanitize_alphanumeric var_name_r
  let specify_kind :=
    if relationship_kind ≠ "" then ": " ++ sanitize_alphanumeric relationship_kind
    else ""
  let f := sanitize_dict_keys rel_properties_filter
  let param_placeholders :=
    ", ".intercalate (f.map (fun kv => kv.1 ++ ": $" ++ kv.1 ++ "_" ++ r))
  let updated_rel_properties_filter := f.map (fun kv => (kv.1 ++ "_" ++ r, kv.2))
  ("MATCH (" ++ var_name_a ++ ")" ++
     "-[" ++ r ++ " " ++ specify_kind ++ " \x7b" ++ param_placeholders ++ "\x7d]->" ++
     "(" ++ var_name_b ++ ")",
   updated_rel_properties_filter)

/-- `True` exactly on exceptions: the model of a Python `raise` reaching
the caller. -/
def exceptIsError {ε α : Type} : Except ε α → Bool
  | .error _ => true
  | .ok _ => false

/-- One triple of the relationship data model
(`ontology_data_model.json`): `(kind_a, kind_b, properties)` where
`properties` maps a property name to its declared type string. -/
abbrev RelTriple := String × String × List (String × String)

/-- The relationship data model: relationship kind → registered triples. -/
abbrev DataModel := List (String × List RelTriple)

/-- The inner property loop of
`Neo4jOntologyConfig._is_valid_relationship_model` against one matching
triple's property schema: every property kind must be declared and
`str(type(value))` must equal the declared type string. -/
def check_rel_properties (model_properties : List (String × String))
    (rel_property_kinds : List String) (rel_property_values : List PyValue) : Bool :=
  (rel_property_kinds.zip rel_property_values).all (fun pv =>
    match alookup pv.1 model_properties with
    | none => false
    | some t => pyTypeStr pv.2 == t)

/-- `Neo4jOntologyConfig._is_valid_relationship_model`: an empty data model
or an unregistered relationship kind yields `False`; if the exact pair
`(kind_a, kind_b)` is not among the registered triples a `ValueError` is
raised; otherwise property validation runs against every triple whose pair
equals `(kind_a, kind_b)`. -/
def is_valid_relationship_model (data_model : Option DataModel)
    (kind_a relationship_kind kind_b : String)
    (rel_property_kinds : List String) (rel_property_values : List PyValue) :
    Except String Bool :=
  match data_model with
  | none => .ok false
  | some dm =>
      match alookup relationship_kind dm with
      | none => .ok false
      | some triples =>
          if (triples.map (fun rel => (rel.1, rel.2.1))).contains (kind_a, kind_b) then
            .ok (triples.all (fun rel =>
              if rel.1 == kind_a && rel.2.1 == kind_b then
                check_rel_properties rel.2.2 rel_property_kinds rel_property_values
              else true))
          else
            .error ("The relationship kind \x27" ++ relationship_kind ++
              "\x27 is not supoorted between entities of kinds (" ++ kind_a ++
              ", " ++ kind_b ++ ")")

/-- A declared kind property: `(type, measurement_unit)`. -/
abbrev PropDef := String × String

/-- The property map stored at one node of the kinds-hierarchy tree
(`node.data.properties`). -/
abbrev KindProps := List (String × PropDef)

/-- The ontology kinds-hierarchy tree, as kind → effective property map
(the tree structure beyond the node lookup is not needed here). -/
abbrev OntoTree := List (String × KindProps)

/-- The properties of the root kind `"Kind"`:
`{"_deleted": {"type": str(bool), "measurement_unit": ""}}`. -/
def kindRootProps : KindProps := [("_deleted", (type2str PyType.bool, ""))]

/-- The two `enumerate` loops of `Neo4jOntologyConfig.create_entity_kind`
building `kind_properties_dict`: for each index, the property name is bound
to its converted type and measurement unit (for equal-length inputs the
later index wins on a duplicated name, as in the source). -/
def build_declared_properties (kind_properties : List String)
    (kind_property_types : List PyType)
    (kind_property_measurement_units : List String) : KindProps :=
  dictOfList
    ((kind_properties.zip (kind_property_types.zip kind_property_measurement_units)).map
      (fun kv => (kv.1, (type2str kv.2.1, kv.2.2))))

/-- `Neo4jOntologyConfig.create_entity_kind` on the loaded tree: a missing
tree is initialized with the root `"Kind"`; the declared properties are
built and then the parent's properties are assigned over them
(`kind_properties_dict.update(parent_node.data.properties)`); an existing
kind is left untouched and its stored node returned
(`DuplicatedNodeIdError`).  A missing parent is modelled as an error: on
that path the source rebinds `parent_node` to the dict returned by the
recursive call and then reads `.data` off it, which fails with
`AttributeError` at runtime. -/
def create_entity_kind (tree : Option OntoTree) (kind parent : String)
    (kind_properties : List String) (kind_property_types : List PyType)
    (kind_property_measurement_units : List String) :
    Except String (OntoTree × KindProps) :=
  let t := match tree with
    | none => [("Kind", kindRootProps)]
    | some t0 => t0
  match alookup parent t with
  | none => .error "AttributeError: \x27dict\x27 object has no attribute \x27data\x27"
  | some parentProps =>
      let effective :=
        dictUpdate
          (build_declared_properties kind_properties kind_property_types
            kind_property_measurement_units)
          parentProps
      match alookup kind t with
      | some existing => .ok (t, existing)
      | none => .ok (t ++ [(kind, effective)], effective)

/-- `Neo4jOntologyConfig.get_entity_kind`: the kind's stored property map,
or an empty dict when the tree is empty or the kind is absent. -/
def get_entity_kind (tree : Option OntoTree) (entity_kind : String) : KindProps :=
  match tree with
  | none => []
  | some t => (alookup entity_kind t).getD []

/-- The `enumerate` loop of
`Neo4jOntologyConfig._check_entity_kind_properties_validity`: a property
kind absent from the ontology or a value whose `str(type(...))` differs
from the declared type string raises a `ValueError`. -/
def check_props_loop (kind_properties : KindProps) :
    List (String × PyValue) → Except String Bool
  | [] => .ok true
  | (prop, v) :: rest =>
      match alookup prop kind_properties with
      | none =>
          .error ("The property \x27" ++ prop ++
            "\x27 isn\x27t in properties in ontology graph")
      | some pdef =>
          if pyTypeStr v ≠ pdef.1 then
            .error ("Property \x27" ++ prop ++ "\x27 should be of type: \x27" ++
              pdef.1 ++ "\x27")
          else check_props_loop kind_properties rest

/-- `Neo4jOntologyConfig._check_entity_kind_properties_validity`: fetches
the kind's effective properties and runs the validation loop over the
paired property kinds and values. -/
def check_entity_kind_properties_validity (tree : Option OntoTree)
    (list_of_property_kinds : List String)
    (list_of_property_values : List PyValue) (entity_kind : String) :
    Except String Bool :=
  check_props_loop (get_entity_kind tree entity_kind)
    (list_of_property_kinds.zip list_of_property_values)

/-- `querymaker.where_state_on_date`: the WHERE fragment constraining the
`HAS_STATE` relationship around the inspected date, interpolating the date
string twice:
`WHERE has_state.startDate <=localdatetime('{date_}') and
(has_state.endDate >=localdatetime('{date_}') or has_state.endDate is null)`. -/
def where_state_on_date (date_ : String) : String :=
  "WHERE has_state.startDate <=localdatetime(\x27" ++ date_ ++ "\x27)" ++
    " and (has_state.endDate >=localdatetime(\x27" ++ date_ ++
    "\x27) or has_state.endDate is null)"

/-- Denotation of the constraint emitted by `where_state_on_date`, as the
store evaluates it on one `HAS_STATE` edge: `startDate <= date AND
(endDate >= date OR endDate is null)`.  Dates are modelled as `Nat`
timestamps and a null `endDate` as `none`. -/
def has_state_on_date (startDate : Nat) (endDate : Option Nat) (date_ : Nat) : Bool :=
  decide (startDate ≤ date_) &&
    (match endDate with
     | some e => decide (e ≥ date_)
     | none => true)

/-- The `HAS_STATE` validity intervals of one entity whose state
transitions happened at the boundary timestamps `bs`, starting from the
creation timestamp `t0`: `[(t0, b1), (b1, b2), ..., (b_n, none)]` (the data
model's partition invariant, §3 of the spec). -/
def chain_intervals (t0 : Nat) (bs : List Nat) : List (Nat × Option Nat) :=
  match bs with
  | [] => [(t0, none)]
  | b :: rest => (t0, some b) :: chain_intervals b rest

/-- A call issued to the backing store, in issue order: `read` is the
node-match query of `_get_entity_nodes`, `patch` the
`graph.versioner.patch` state-creating query, `createRel` the
`graph.versioner.relationship.create` query. -/
inductive DbCall where
  | read (ids : List String)
  | patch (ids : List String) (updates : List (String × PyValue))
  | createRel (id_a relationship_kind id_b : String)
      (properties : List (String × PyValue))
  deriving DecidableEq, Repr

/-- `True` on the calls that mutate the backing store. -/
def dbCallIsMutation : DbCall → Bool
  | .read _ => false
  | .patch _ _ => true
  | .createRel _ _ _ _ => true

/-- The store contents visible to `_get_entity_nodes`: entity `Id` →
entity kind (the single label beyond the versioner's own labels,
`next(iter(node.labels))`). -/
abbrev EntityStore := List (String × String)

/-- `Neo4jKnowledgeGraph._get_entity_nodes`: nodes whose `Id` is in the
sanitized id list (the WHERE-IN fragment passes each id through
`sanitize_id`); `None` is returned when no node matches. -/
def get_entity_nodes (store : EntityStore) (list_of_ids : List String) :
    Option (List (String × String)) :=
  let found := store.filter (fun e => (list_of_ids.map sanitize_id).contains e.1)
  if found.isEmpty then none else some found

/-- The validation loop of
`Neo4jKnowledgeGraph.create_or_update_properties_of_entities`: each found
entity's kind is checked with
`_check_entity_kind_properties_validity`; the first `ValueError`
propagates. -/
def validate_entities (tree : Option OntoTree) (pks : List String)
    (pvs : List PyValue) : List (String × String) → Except String Unit
  | [] => .ok ()
  | (_, kind) :: rest =>
      match check_entity_kind_properties_validity tree pks pvs kind with
      | .error e => .error e
      | .ok _ => validate_entities tree pks pvs rest

/-- The per-id existence loop of
`create_or_update_properties_of_entities`: one `_get_entity_nodes` read per
id, raising on the first id not in the database. -/
def per_id_reads (store : EntityStore) : List String → List DbCall × Except String Unit
  | [] => ([], .ok ())
  | i :: rest =>
      match get_entity_nodes store [i] with
      | none =>
          ([DbCall.read [i]],
           .error ("Node with Id " ++ i ++ " is not in database. Nothing has been updated"))
      | some _ =>
          let (tr, r) := per_id_reads store rest
          (DbCall.read [i] :: tr, r)

/-- `Neo4jKnowledgeGraph.create_or_update_properties_of_entities`: after
the length assert, one read query fetches the entity nodes; if any were
found each one's kind is validated against the ontology (a `ValueError`
propagates before any further call); then the per-id existence loop runs
and finally the single `graph.versioner.patch` mutation query is issued.
Returns the trace of issued backing-store calls and the outcome. -/
def create_or_update_properties_of_entities (tree : Option OntoTree)
    (store : EntityStore) (entity_ids : List String)
    (property_kinds : List String) (new_property_values : List PyValue) :
    List DbCall × Except String Unit :=
  if property_kinds.length ≠ new_property_values.length then
    ([], .error "AssertionError: Number of property kinds and values should be equal")
  else
    let entities := get_entity_nodes store entity_ids
    let validated :=
      match entities with
      | none => Except.ok ()
      | some ents => validate_entities tree property_kinds new_property_values ents
    match validated with
    | .error e => ([DbCall.read entity_ids], .error e)
    | .ok () =>
        let (loop_trace, loop_result) := per_id_reads store entity_ids
        match loop_result with
        | .error e => (DbCall.read entity_ids :: loop_trace, .error e)
        | .ok () =>
            (DbCall.read entity_ids :: loop_trace ++
               [DbCall.patch entity_ids
                  (dictOfList (property_kinds.zip new_property_values))],
             .ok ())

/-- `Neo4jKnowledgeGraph.create_entity`: after the length assert and the
id-index uniqueness check, `"_deleted"`/`False` are appended in place to
the caller's `property_kinds`/`property_values` lists, then the batch is
validated against the ontology and on success the
`graph.versioner.init` query is issued.  Returns the final contents of the
caller's two argument lists together with the outcome. -/
def create_entity (tree : Option OntoTree) (known_ids : List String)
    (kind entity_id : String) (property_kinds : List String)
    (property_values : List PyValue) :
    (List String × List PyValue) × Except String (List (String × PyValue)) :=
  if property_kinds.length ≠ property_values.length then
    ((property_kinds, property_values),
     .error "AssertionError: Number of property kinds and values should be equal")
  else if known_ids.contains entity_id then
    ((property_kinds, property_values), .error "The same id exists in database")
  else
    let pks := property_kinds ++ ["_deleted"]
    let pvs := property_values ++ [PyValue.bool false]
    match check_entity_kind_properties_validity tree pks pvs kind with
    | .error e => ((pks, pvs), .error e)
    | .ok _ =>
        ((pks, pvs),
         .ok (("Id", PyValue.str entity_id) :: dictOfList (pks.zip pvs)))

/-- `Neo4jKnowledgeGraph._check_relationship_validity`: looks up each
endpoint (one read query per lookup, raising "Id ... is not defined" on a
missing one), takes each endpoint's kind from its node labels, and then
requires `_is_valid_relationship_model` to hold (a `False` outcome raises
"not a valid relationship in ontology data model"; its own `ValueError`
propagates). -/
def check_relationship_validity (data_model : Option DataModel)
    (store : EntityStore) (id_a relationship_kind id_b : String)
    (rel_property_kinds : List String) (rel_property_values : List PyValue) :
    List DbCall × Except String Unit :=
  match get_entity_nodes store [id_a] with
  | none =>
      ([DbCall.read [id_a]],
       .error ("Id \x27" ++ id_a ++ "\x27 is not defined, in DB, relationship (" ++
         id_a ++ "," ++ relationship_kind ++ "," ++ id_b ++ ") has not been created"))
  | some a_nodes =>
      let kind_a := ((a_nodes.head?).map Prod.snd).getD ""
      match get_entity_nodes store [id_b] with
      | none =>
          ([DbCall.read [id_a], DbCall.read [id_b]],
           .error ("Id \x27" ++ id_b ++ "\x27 is not defined in DB, relationship (" ++
             id_a ++ "," ++ relationship_kind ++ "," ++ id_b ++ ") has not been created"))
      | some b_nodes =>
          let kind_b := ((b_nodes.head?).map Prod.snd).getD ""
          match is_valid_relationship_model data_model kind_a relationship_kind
              kind_b rel_property_kinds rel_property_values with
          | .error e => ([DbCall.read [id_a], DbCall.read [id_b]], .error e)
          | .ok false =>
              ([DbCall.read [id_a], DbCall.read [id_b]],
               .error ("Relationship (" ++ id_a ++ "," ++ relationship_kind ++ "," ++
                 id_b ++ ") couldn\x27t be created. Not a valid relationship in ontology data model"))
          | .ok true => ([DbCall.read [id_a], DbCall.read [id_b]], .ok ())

/-- The outcome of `create_relationship`: the trace of backing-store
calls, the final contents of the caller's `rel_property_kinds` and
`rel_property_values` lists, and the result. -/
structure CreateRelOut where
  trace : List DbCall
  finalPks : List String
  finalPvs : List PyValue
  result : Except String (List (String × PyValue))
  deriving Repr

/-- `Neo4jKnowledgeGraph.create_relationship`: `_check_relationship_validity`
runs first; only when it passes are `"_deleted"`/`False` appended in place
to the caller's property lists and the single
`graph.versioner.relationship.create` mutation query issued. -/
def create_relationship (data_model : Option DataModel) (store : EntityStore)
    (id_a relationship_kind id_b : String) (rel_property_kinds : List String)
    (rel_property_values : List PyValue) : CreateRelOut :=
  match check_relationship_validity data_model store id_a relationship_kind id_b
      rel_property_kinds rel_property_values with
  | (tr, .error e) => ⟨tr, rel_property_kinds, rel_property_values, .error e⟩
  | (tr, .ok ()) =>
      let pks := rel_property_kinds ++ ["_deleted"]
      let pvs := rel_property_values ++ [PyValue.bool false]
      let props := dictOfList (pks.zip pvs)
      ⟨tr ++ [DbCall.createRel id_a relationship_kind id_b props],
       pks, pvs, .ok props⟩

/-- A node record as the ingestion connector sees it: the semantic-action
code, the change timestamp split into whole seconds and microseconds, and
the remaining properties. -/
structure ZuState where
  semanticAction : PyValue
  tlSecs : Nat
  tlMicro : Nat
  props : List (String × PyValue)
  deriving DecidableEq, Repr

/-- `connect_to_zu.neo4j2datetime` applied to the stored `TLChange`: the
neo4j datetime is rebuilt with `int(second)`, i.e. truncated to whole
seconds. -/
def neo4j2datetime (st : ZuState) : Nat :=
  st.tlSecs

/-- `connect_to_zu.check_updates_novelty`: `False` when a current state
exists whose `SemanticAction` equals the update's and whose `TLChange`
(truncated to seconds) equals the update's
`TLChange.replace(microsecond=0)`; `True` otherwise.  No other property is
compared. -/
def check_updates_novelty (current_state : Option ZuState) (updates : ZuState) :
    Bool :=
  match current_state with
  | some cur =>
      if cur.semanticAction == updates.semanticAction then
        if neo4j2datetime cur == updates.tlSecs then false else true
      else true
  | none => true

/-- One row of the `inverted_index` fts5 table:
`(title, entity_id, num_rels, tag, user_id)`. -/
structure IndexRow where
  title : String
  entity_id : String
  num_rels : Nat
  tag : String
  user_id : String
  deriving DecidableEq, Repr

/-- Python `s.replace(c, r)` for a one-character pattern `c`. -/
def strReplaceChar (s : String) (c : Char) (r : String) : String :=
  String.mk (s.data.foldr (fun a acc => if a = c then r.data ++ acc else a :: acc) [])

/-- Python `s.lower()` (ASCII fragment). -/
def strToLower (s : String) : String :=
  String.mk (s.data.map Char.toLower)

/-- The `replace("/", "slash").replace("-", "hyphen")` normalization
applied to entity ids and user ids in `Index.add_entities`. -/
def pyIdRepl (s : String) : String :=
  strReplaceChar (strReplaceChar s '/' "slash") '-' "hyphen"

/-- The fts5 `MATCH "title:{substr} AND tag:{tag} AND user_id:{user}"`
lookup, modelled as per-column equality against the stored rows (titles
are stored lower-cased and the `porter ascii` tokenizer matches
case-insensitively, so the query substring is compared lower-cased). -/
def fts_match (table : List IndexRow) (entity_substr tag user_id : String) :
    List IndexRow :=
  table.filter (fun r =>
    r.title == strToLower entity_substr && r.tag == tag && r.user_id == user_id)

/-- One iteration of the `Index.add_entities` loop: look up the rows
matching `(substring, tag, user)`; if the first matched row is
`"name"`-tagged with the same (normalized) entity id and the incoming tag
is `"name"`, delete all `(entity_id, tag, user_id)` rows and insert the
new row; insert only when nothing matched; otherwise leave the table
unchanged. -/
def add_entity (table : List IndexRow) (user_id_raw : String)
    (entity_substr entity_id_raw tag : String) : List IndexRow :=
  let user_id := pyIdRepl user_id_raw
  let entity_id := pyIdRepl entity_id_raw
  match fts_match table entity_substr tag user_id with
  | r0 :: _ =>
      if r0.tag == "name" && r0.entity_id == entity_id && tag == "name" then
        (table.filter (fun r =>
            !(r.entity_id == entity_id && r.tag == tag && r.user_id == user_id))) ++
          [⟨strToLower entity_substr, entity_id, 1, tag, user_id⟩]
      else table
  | [] => table ++ [⟨strToLower entity_substr, entity_id, 1, tag, user_id⟩]

section FilterLemmas

variable {α : Type} (p : α → Bool)

theorem filter_all_pred : ∀ l : List α, (l.filter p).all p = true := by
  intro l
  induction l with
  | nil => rfl
  | cons a rest ih =>
      by_cases h : p a = true
      · simp [List.filter_cons, h, ih]
      · simp [List.filter_cons, h, ih]

theorem filter_idempotent : ∀ l : List α, (l.filter p).filter p = l.filter p := by
  intro l
  induction l with
  | nil => rfl
  | cons a rest ih =>
      by_cases h : p a = true
      · simp [List.filter_cons, h, ih]
      · simp [List.filter_cons, h, ih]

theorem filter_of_all : ∀ l : List α, l.all p = true → l.filter p = l := by
  intro l
  induction l with
  | nil => intro _; rfl
  | cons a rest ih =>
      intro h
      rw [List.all_cons, Bool.and_eq_true] at h
      simp [List.filter_cons, h.1, ih h.2]

end FilterLemmas

theorem chain_forall_gt (a : Nat) (l : List Nat)
    (h : List.Chain (fun x y => x < y) a l) : ∀ x ∈ l, a < x := by
  induction l generalizing a with
  | nil => intro x hx; cases hx
  | cons b rest ih =>
      cases h with
      | cons hab hrest =>
          intro x hx
          rcases List.mem_cons.mp hx with hxb | hxr
          · exact hxb ▸ hab
          · exact lt_trans hab (ih b hrest x hxr)

theorem chain_intervals_start_le (t0 : Nat) (bs : List Nat)
    (h : List.Chain (fun x y => x < y) t0 bs) :
    ∀ s ∈ chain_intervals t0 bs, t0 ≤ s.1 := by
  induction bs generalizing t0 with
  | nil =>
      intro s hs
      rw [chain_intervals, List.mem_singleton] at hs
      exact hs ▸ le_refl t0
  | cons b rest ih =>
      cases h with
      | cons hab hrest =>
          intro s hs
          rw [chain_intervals] at hs
          rcases List.mem_cons.mp hs with h1 | h2
          · exact h1 ▸ le_refl t0
          · exact le_of_lt (lt_of_lt_of_le hab (ih b hrest s h2))

/-- C2 (amended): the constraint generated by `where_state_on_date` and
applied by `get_entities_by_date` has a closed upper bound
(`endDate >= date`, not `date < endDate`), so over the partitioned
`HAS_STATE` intervals of one entity it is satisfied by exactly two states
when the queried date is an exact transition boundary (the state whose
interval ended at that date is included) and by exactly one state for
every other date on or after entity creation. -/
theorem state_on_date_count (t0 : Nat) (bs : List Nat) (d : Nat)
    (hd : t0 ≤ d) (hchain : List.Chain (fun x y => x < y) t0 bs) :
    (chain_intervals t0 bs).countP (fun s => has_state_on_date s.1 s.2 d) =
      if d ∈ bs then 2 else 1 := by
  induction bs generalizing t0 with
  | nil =>
      rw [chain_intervals]
      simp [has_state_on_date, hd]
  | cons b rest ih =>
      cases hchain with
      | cons hab hrest =>
          rw [chain_intervals, List.countP_cons]
          rcases lt_trichotomy d b with hlt | heq | hgt
          · have hzero :
                (chain_intervals b rest).countP
                  (fun s => has_state_on_date s.1 s.2 d) = 0 := by
              rw [List.countP_eq_zero]
              intro s hs
              have hb := chain_intervals_start_le b rest hrest s hs
              simp only [has_state_on_date, Bool.and_eq_true, decide_eq_true_eq]
              intro hcontra
              omega
            have hmem : d ∉ b :: rest := by
              intro hmem
              rcases List.mem_cons.mp hmem with h1 | h2
              · omega
              · have := chain_forall_gt b rest hrest d h2
                omega
            rw [hzero]
            simp [has_state_on_date, hd, le_of_lt hlt, hmem, Nat.le_of_lt hlt]
          · have hrest_count := ih b (le_of_eq heq.symm) hrest
            have hmem : d ∉ rest := by
              intro h2
              have := chain_forall_gt b rest hrest d h2
              omega
            have hmem' : b ∉ rest := heq ▸ hmem
            rw [hrest_count]
            simp [has_state_on_date, hd, heq, hmem, hmem', le_of_lt hab]
          · have hrest_count := ih b (le_of_lt hgt) hrest
            have hne : d ≠ b := by omega
            rw [hrest_count]
            by_cases hmem : d ∈ rest
            · simp [has_state_on_date, hd, hmem, hne, Nat.not_le.mpr hgt]
            · simp [has_state_on_date, hd, hmem, hne, Nat.not_le.mpr hgt]

/-- C2 counterexample: under the generated constraint a state whose
`HAS_STATE` interval ended exactly at the queried date is not excluded, and
at that boundary two states of the partition `[(0,5),(5,null)]` satisfy the
constraint, not exactly one. -/
theorem state_on_date_closed_bound_cex :
    has_state_on_date 0 (some 5) 5 = true ∧
    (chain_intervals 0 [5]).countP (fun s => has_state_on_date s.1 s.2 5) = 2 := by
  decide

/-- C2 witness: `state_on_date_count` applied to the concrete partition
`[(0,5),(5,null)]` at the boundary date `5`. -/
theorem state_on_date_count_witness :
    (chain_intervals 0 [5]).countP (fun s => has_state_on_date s.1 s.2 5) =
      if 5 ∈ [5] then 2 else 1 :=
  state_on_date_count 0 [5] 5 (by decide)
    (List.Chain.cons (by decide) List.Chain.nil)

/-- C10: `sanitize_alphanumeric` and `sanitize_id` are idempotent character
filters: their outputs consist only of the allowed characters (alphanumeric
or underscore, resp. alphanumeric, underscore or hyphen), applying either
twice equals applying it once, and a string made only of allowed characters
is returned unchanged. -/
theorem sanitize_filters_algebra :
    ∀ s : String,
      (sanitize_alphanumeric s).data.all (fun c => pyIsAlnum c || c == '_') = true ∧
      sanitize_alphanumeric (sanitize_alphanumeric s) = sanitize_alphanumeric s ∧
      (s.data.all (fun c => pyIsAlnum c || c == '_') = true →
        sanitize_alphanumeric s = s) ∧
      (sanitize_id s).data.all (fun c => pyIsAlnum c || ['_', '-'].contains c) = true ∧
      sanitize_id (sanitize_id s) = sanitize_id s ∧
      (s.data.all (fun c => pyIsAlnum c || ['_', '-'].contains c) = true →
        sanitize_id s = s) := by
  intro s
  refine ⟨?_, ?_, ?_, ?_, ?_, ?_⟩
  · exact filter_all_pred _ s.data
  · show String.mk ((s.data.filter _).filter _) = String.mk (s.data.filter _)
    rw [filter_idempotent]
  · intro h
    show String.mk (s.data.filter _) = s
    rw [filter_of_all _ s.data h]
  · exact filter_all_pred _ s.data
  · show String.mk ((s.data.filter _).filter _) = String.mk (s.data.filter _)
    rw [filter_idempotent]
  · intro h
    show String.mk (s.data.filter _) = s
    rw [filter_of_all _ s.data h]

/-- C10 witness: the properties of `sanitize_filters_algebra` evaluated at
the concrete string `"ab_c-1!"`. -/
theorem sanitize_filters_algebra_witness :
    sanitize_alphanumeric (sanitize_alphanumeric "ab_c-1!") =
      sanitize_alphanumeric "ab_c-1!" ∧
    "ab_1".data.all (fun c => pyIsAlnum c || c == '_') = true ∧
    sanitize_alphanumeric "ab_1" = "ab_1" ∧
    sanitize_id (sanitize_id "ab_c-1!") = sanitize_id "ab_c-1!" ∧
    "ab_c-1".data.all (fun c => pyIsAlnum c || ['_', '-'].contains c) = true ∧
    sanitize_id "ab_c-1" = "ab_c-1" :=
  ⟨(sanitize_filters_algebra "ab_c-1!").2.1,
   by decide,
   (sanitize_filters_algebra "ab_1").2.2.1 (by decide),
   (sanitize_filters_algebra "ab_c-1!").2.2.2.2.1,
   by decide,
   (sanitize_filters_algebra "ab_c-1").2.2.2.2.2 (by decide)⟩

/-- C1: evaluation of `match_relationship_cypher_query` at an adversarial
`var_name_a`. The variable names `var_name_a` and `var_name_b` are
interpolated into the MATCH fragment without passing through
`sanitize_alphanumeric`, so the parentheses, spaces and keywords of the
input survive verbatim in the emitted query fragment, while the sanitizer
would have reduced the input to `"aDETACHDELETEx"`. -/
theorem match_relationship_unsanitized_var_names :
    (match_relationship_cypher_query "a) DETACH DELETE (x" "r" "" [] "b").1 =
      "MATCH (a) DETACH DELETE (x)-[r  \x7b\x7d]->(b)" ∧
    sanitize_alphanumeric "a) DETACH DELETE (x" = "aDETACHDELETEx" := by
  constructor
  · rfl
  · decide

theorem alookup_dictInsert {V : Type} (d : List (String × V)) (k k' : String) (v : V) :
    alookup k' (dictInsert d k v) = if k' = k then some v else alookup k' d := by
  induction d with
  | nil => rfl
  | cons kv rest ih =>
      obtain ⟨k₀, v₀⟩ := kv
      by_cases h : k₀ = k
      · subst h
        by_cases h2 : k' = k₀
        · simp [dictInsert, alookup, h2]
        · simp [dictInsert, alookup, h2]
      · by_cases h2 : k' = k₀
        · have h3 : ¬k' = k := fun hh => h (h2.symm.trans hh)
          simp [dictInsert, alookup, h, h2, h3]
        · simp [dictInsert, alookup, h, h2, ih]

theorem alookup_none_of_not_mem {V : Type} (l : List (String × V)) (k : String)
    (h : k ∉ l.map Prod.fst) : alookup k l = none := by
  induction l with
  | nil => rfl
  | cons kv rest ih =>
      obtain ⟨k₀, v₀⟩ := kv
      simp only [List.map_cons, List.mem_cons, not_or] at h
      simp [alookup, h.1, ih h.2]

theorem alookup_dictUpdate_none {V : Type} (e : List (String × V)) :
    ∀ (d : List (String × V)) (k : String), alookup k e = none →
      alookup k (dictUpdate d e) = alookup k d := by
  induction e with
  | nil => intro d k _; rfl
  | cons kv rest ih =>
      obtain ⟨k₀, v₀⟩ := kv
      intro d k h
      rw [alookup] at h
      by_cases h2 : k = k₀
      · rw [if_pos h2] at h; cases h
      · rw [if_neg h2] at h
        show alookup k (dictUpdate (dictInsert d k₀ v₀) rest) = alookup k d
        rw [ih _ k h, alookup_dictInsert, if_neg h2]

theorem alookup_dictUpdate_mem {V : Type} (e : List (String × V)) :
    ∀ (d : List (String × V)) (k : String) (v : V),
      (e.map Prod.fst).Nodup → alookup k e = some v →
      alookup k (dictUpdate d e) = some v := by
  induction e with
  | nil => intro d k v _ h; cases h
  | cons kv rest ih =>
      obtain ⟨k₀, v₀⟩ := kv
      intro d k v hnd hmem
      rw [List.map_cons, List.nodup_cons] at hnd
      rw [alookup] at hmem
      by_cases h2 : k = k₀
      · rw [if_pos h2] at hmem
        have hnone : alookup k rest = none := by
          apply alookup_none_of_not_mem
          rw [h2]; exact hnd.1
        show alookup k (dictUpdate (dictInsert d k₀ v₀) rest) = some v
        rw [alookup_dictUpdate_none rest _ k hnone, alookup_dictInsert, if_pos h2]
        exact hmem
      · rw [if_neg h2] at hmem
        show alookup k (dictUpdate (dictInsert d k₀ v₀) rest) = some v
        exact ih _ k v hnd.2 hmem

/-- C3 counterexample: with the single registered triple
`("All", "B", {})` for relationship kind `"REL"`, validating the pairing
`("A", "B")` does not accept the wildcard — the call raises a `ValueError`
instead. -/
theorem relationship_model_wildcard_cex :
    exceptIsError
      (is_valid_relationship_model (some [("REL", [("All", "B", [])])])
        "A" "REL" "B" [] []) = true := by
  decide

/-- C3 (amended): in `_is_valid_relationship_model` a pairing is accepted
only when the exact pair `(kind_a, kind_b)` appears among the triples
registered for the relationship kind — there is no wildcard handling.  An
empty data model or an unregistered relationship kind yields `False`, and
when the relationship kind is registered but no exact pair matches, the
call raises a `ValueError` rather than returning `False`. -/
theorem relationship_model_exact_pair_only :
    ∀ (dm : DataModel) (ka rk kb : String) (pks : List String)
      (pvs : List PyValue),
      is_valid_relationship_model none ka rk kb pks pvs = Except.ok false ∧
      (alookup rk dm = none →
        is_valid_relationship_model (some dm) ka rk kb pks pvs = Except.ok false) ∧
      (∀ triples, alookup rk dm = some triples →
        ((triples.map (fun rel => (rel.1, rel.2.1))).contains (ka, kb) = false →
          exceptIsError
            (is_valid_relationship_model (some dm) ka rk kb pks pvs) = true) ∧
        ((triples.map (fun rel => (rel.1, rel.2.1))).contains (ka, kb) = true →
          ∃ b, is_valid_relationship_model (some dm) ka rk kb pks pvs =
            Except.ok b)) := by
  intro dm ka rk kb pks pvs
  refine ⟨rfl, ?_, ?_⟩
  · intro h
    simp [is_valid_relationship_model, h]
  · intro triples h
    constructor
    · intro hc
      simp only [is_valid_relationship_model, h]
      rw [hc]
      simp [exceptIsError]
    · intro hc
      refine ⟨triples.all (fun rel =>
        if rel.1 == ka && rel.2.1 == kb then
          check_rel_properties rel.2.2 pks pvs
        else true), ?_⟩
      simp only [is_valid_relationship_model, h]
      rw [hc]
      simp

/-- C3 witness: `relationship_model_exact_pair_only` at the concrete model
`{"LIKES": [("All","B",{}), ("C","D",{})]}`: the pairing `("C","B")` is
rejected with an exception although `("All","B")` is registered, while the
exact pairing `("C","D")` is accepted. -/
theorem relationship_model_exact_pair_only_witness :
    exceptIsError
      (is_valid_relationship_model
        (some [("LIKES", [("All", "B", []), ("C", "D", [])])])
        "C" "LIKES" "B" [] []) = true ∧
    (∃ b, is_valid_relationship_model
        (some [("LIKES", [("All", "B", []), ("C", "D", [])])])
        "C" "LIKES" "D" [] [] = Except.ok b) :=
  ⟨((relationship_model_exact_pair_only
        [("LIKES", [("All", "B", []), ("C", "D", [])])] "C" "LIKES" "B" [] []).2.2
      [("All", "B", []), ("C", "D", [])] rfl).1 (by decide),
   ((relationship_model_exact_pair_only
        [("LIKES", [("All", "B", []), ("C", "D", [])])] "C" "LIKES" "D" [] []).2.2
      [("All", "B", []), ("C", "D", [])] rfl).2 (by decide)⟩

/-- C5 counterexample: a child kind declaring `p : str` under a parent
whose `p` is declared `int` ends up with the parent's `int` definition in
its effective property set — the inherited definition wins the collision,
not the child's declared one. -/
theorem entity_kind_parent_wins_cex :
    (create_entity_kind
        (some [("Kind", [("_deleted", (type2str PyType.bool, ""))]),
               ("Parent", [("p", (type2str PyType.int, "")),
                           ("_deleted", (type2str PyType.bool, ""))])])
        "Child" "Parent" ["p"] [PyType.str] [""]).map
        (fun r => alookup "p" r.2) =
      Except.ok (some (type2str PyType.int, "")) ∧
    (type2str PyType.int, "") ≠ ((type2str PyType.str, "") : PropDef) := by
  exact ⟨rfl, by decide⟩

/-- C5 (amended): in `create_entity_kind` the parent's properties are
assigned over the declared ones
(`kind_properties_dict.update(parent_node.data.properties)`), so for every
key also present on the parent the child's stored effective property set
keeps the inherited definition. -/
theorem entity_kind_inherited_over_declared :
    ∀ (t : OntoTree) (kind parent : String) (declKinds : List String)
      (declTypes : List PyType) (declUnits : List String)
      (pProps : KindProps) (k : String) (pdef : PropDef),
      alookup parent t = some pProps →
      alookup kind t = none →
      (pProps.map Prod.fst).Nodup →
      alookup k pProps = some pdef →
      ∃ eff,
        create_entity_kind (some t) kind parent declKinds declTypes declUnits =
          Except.ok (t ++ [(kind, eff)], eff) ∧
        alookup k eff = some pdef := by
  intro t kind parent dk dt du pProps k pdef hpar hkind hnd hk
  refine ⟨dictUpdate (build_declared_properties dk dt du) pProps, ?_, ?_⟩
  · simp only [create_entity_kind, hpar, hkind]
  · exact alookup_dictUpdate_mem pProps _ k pdef hnd hk

/-- C5 witness: `entity_kind_inherited_over_declared` at a concrete tree
where `Parent` declares `q : int` and the child re-declares `q : str`. -/
theorem entity_kind_inherited_over_declared_witness :
    ∃ eff,
      create_entity_kind
          (some [("Kind", kindRootProps),
                 ("Parent", [("q", (type2str PyType.int, "")),
                             ("_deleted", (type2str PyType.bool, ""))])])
          "Child2" "Parent" ["q"] [PyType.str] [""] =
        Except.ok
          ([("Kind", kindRootProps),
            ("Parent", [("q", (type2str PyType.int, "")),
                        ("_deleted", (type2str PyType.bool, ""))])] ++
             [("Child2", eff)], eff) ∧
      alookup "q" eff = some (type2str PyType.int, "") :=
  entity_kind_inherited_over_declared
    [("Kind", kindRootProps),
     ("Parent", [("q", (type2str PyType.int, "")),
                 ("_deleted", (type2str PyType.bool, ""))])]
    "Child2" "Parent" ["q"] [PyType.str] [""]
    [("q", (type2str PyType.int, "")), ("_deleted", (type2str PyType.bool, ""))]
    "q" (type2str PyType.int, "") rfl rfl (by decide) rfl

theorem check_props_loop_ok_iff (kp : KindProps) (l : List (String × PyValue)) :
    check_props_loop kp l = Except.ok true ↔
      ∀ pv ∈ l, ∃ pdef, alookup pv.1 kp = some pdef ∧ pyTypeStr pv.2 = pdef.1 := by
  induction l with
  | nil => simp [check_props_loop]
  | cons pv rest ih =>
      obtain ⟨p, v⟩ := pv
      cases halo : alookup p kp with
      | none =>
          have hred : check_props_loop kp ((p, v) :: rest) =
              Except.error ("The property \x27" ++ p ++
                "\x27 isn\x27t in properties in ontology graph") := by
            rw [check_props_loop, halo]
          rw [hred]
          constructor
          · intro hfalse
            exact Except.noConfusion hfalse
          · intro hall
            exfalso
            obtain ⟨pdef, hl, _⟩ := hall (p, v) (List.mem_cons_self _ _)
            rw [halo] at hl
            exact Option.noConfusion hl
      | some pdef =>
          have hred : check_props_loop kp ((p, v) :: rest) =
              if pyTypeStr v ≠ pdef.1 then
                Except.error ("Property \x27" ++ p ++ "\x27 should be of type: \x27" ++
                  pdef.1 ++ "\x27")
              else check_props_loop kp rest := by
            rw [check_props_loop, halo]
          rw [hred]
          by_cases ht : pyTypeStr v = pdef.1
          · rw [if_neg (fun hne => hne ht), ih]
            constructor
            · intro hall pv hpv
              rcases List.mem_cons.mp hpv with hh | hh
              · rw [hh]
                exact ⟨pdef, halo, ht⟩
              · exact hall pv hh
            · intro hall pv hpv
              exact hall pv (List.mem_cons_of_mem _ hpv)
          · rw [if_pos ht]
            constructor
            · intro hfalse
              exact Except.noConfusion hfalse
            · intro hall
              exfalso
              obtain ⟨pdef', hl, hty⟩ := hall (p, v) (List.mem_cons_self _ _)
              rw [halo] at hl
              injection hl with hl
              rw [hl] at ht
              exact ht hty

/-- C4 counterexample: a batch with the undeclared property `"height"` is
rejected, but only after the entity-node read query has already been
issued to the backing store — the trace at the raise is
`[read ["e1"]]`, not empty. -/
theorem properties_validation_read_before_raise :
    (create_or_update_properties_of_entities
        (some [("A", kindRootProps)]) [("e1", "A")] ["e1"]
        ["height"] [PyValue.int 1]).1 = [DbCall.read ["e1"]] ∧
    exceptIsError
      (create_or_update_properties_of_entities
        (some [("A", kindRootProps)]) [("e1", "A")] ["e1"]
        ["height"] [PyValue.int 1]).2 = true := by
  exact ⟨rfl, rfl⟩

/-- C4 (amended): the ontology validation accepts a property batch for a
kind exactly when every key is declared in the kind's effective property
set and each paired value's runtime type string equals the declared type
string; any single mismatch raises and rejects the whole batch, and a
`create_or_update_properties_of_entities` call whose batch is rejected has
issued only the initial entity-node read query — no patch mutation, so no
new state — when the error propagates. -/
theorem properties_validation_gate :
    ∀ (tree : Option OntoTree) (store : EntityStore) (ids : List String)
      (pks : List String) (pvs : List PyValue) (kind : String) (e : String),
      pks.length = pvs.length →
      (check_entity_kind_properties_validity tree pks pvs kind = Except.ok true ↔
        ∀ pv ∈ pks.zip pvs, ∃ pdef,
          alookup pv.1 (get_entity_kind tree kind) = some pdef ∧
          pyTypeStr pv.2 = pdef.1) ∧
      ((match get_entity_nodes store ids with
          | none => Except.ok ()
          | some ents => validate_entities tree pks pvs ents) = Except.error e →
        create_or_update_properties_of_entities tree store ids pks pvs =
          ([DbCall.read ids], Except.error e)) := by
  intro tree store ids pks pvs kind e hlen
  constructor
  · exact check_props_loop_ok_iff (get_entity_kind tree kind) (pks.zip pvs)
  · intro hval
    rw [create_or_update_properties_of_entities, if_neg (fun hc => hc hlen)]
    simp only [hval]

/-- C4 witness: `properties_validation_gate` at a store holding entity
`"e2"` of kind `"B"` and the undeclared property `"w"`. -/
theorem properties_validation_gate_witness :
    (match get_entity_nodes [("e2", "B")] ["e2"] with
      | none => Except.ok ()
      | some ents =>
          validate_entities (some [("B", kindRootProps)]) ["w"] [PyValue.int 2] ents) =
      Except.error
        "The property \x27w\x27 isn\x27t in properties in ontology graph" ∧
    create_or_update_properties_of_entities (some [("B", kindRootProps)])
        [("e2", "B")] ["e2"] ["w"] [PyValue.int 2] =
      ([DbCall.read ["e2"]],
       Except.error
         "The property \x27w\x27 isn\x27t in properties in ontology graph") :=
  ⟨rfl,
   (properties_validation_gate (some [("B", kindRootProps)]) [("e2", "B")]
       ["e2"] ["w"] [PyValue.int 2] "B"
       "The property \x27w\x27 isn\x27t in properties in ontology graph" rfl).2 rfl⟩

/-- C6: a `create_relationship` call with a missing endpoint fails with
the unknown-endpoint error before any mutation query is issued (its trace
holds only read queries), and the relationship-creation mutation query
appears in the trace exactly when both endpoints exist and the
`(kind_a, rel_kind, kind_b, props)` tuple passes the ontology data-model
validation. -/
theorem create_relationship_endpoint_gate :
    ∀ (dm : Option DataModel) (store : EntityStore) (id_a rk id_b : String)
      (pks : List String) (pvs : List PyValue),
      ((get_entity_nodes store [id_a] = none ∨
          get_entity_nodes store [id_b] = none) →
        exceptIsError (create_relationship dm store id_a rk id_b pks pvs).result =
            true ∧
          (create_relationship dm store id_a rk id_b pks pvs).trace.all
            (fun c => !dbCallIsMutation c) = true) ∧
      ((create_relationship dm store id_a rk id_b pks pvs).trace.any
          (fun c => dbCallIsMutation c) = true ↔
        ∃ aN bN, get_entity_nodes store [id_a] = some aN ∧
          get_entity_nodes store [id_b] = some bN ∧
          is_valid_relationship_model dm (((aN.head?).map Prod.snd).getD "") rk
            (((bN.head?).map Prod.snd).getD "") pks pvs = Except.ok true) := by
  intro dm store ida rk idb pks pvs
  cases h1 : get_entity_nodes store [ida] with
  | none =>
      constructor
      · intro _
        simp [create_relationship, check_relationship_validity, h1,
          exceptIsError, dbCallIsMutation]
      · simp [create_relationship, check_relationship_validity, h1,
          dbCallIsMutation]
  | some aN =>
      cases h2 : get_entity_nodes store [idb] with
      | none =>
          constructor
          · intro _
            simp [create_relationship, check_relationship_validity, h1, h2,
              exceptIsError, dbCallIsMutation]
          · simp [create_relationship, check_relationship_validity, h1, h2,
              dbCallIsMutation]
      | some bN =>
          constructor
          · intro hor
            rcases hor with hc | hc
            · exact Option.noConfusion hc
            · exact Option.noConfusion hc
          · cases h3 : is_valid_relationship_model dm
                (((aN.head?).map Prod.snd).getD "") rk
                (((bN.head?).map Prod.snd).getD "") pks pvs with
            | error e =>
                simp [create_relationship, check_relationship_validity, h1, h2,
                  h3, dbCallIsMutation]
            | ok b =>
                cases b with
                | false =>
                    simp [create_relationship, check_relationship_validity,
                      h1, h2, h3, dbCallIsMutation]
                | true =>
                    simp [create_relationship, check_relationship_validity,
                      h1, h2, h3, dbCallIsMutation]

/-- C6 witness: `create_relationship_endpoint_gate` with the unknown
endpoint `"x1"`: the call errors and its trace holds no mutation query. -/
theorem create_relationship_endpoint_gate_witness :
    get_entity_nodes [("y1", "B")] ["x1"] = none ∧
    exceptIsError
      (create_relationship (some []) [("y1", "B")] "x1" "R" "y1" [] []).result =
        true ∧
    (create_relationship (some []) [("y1", "B")] "x1" "R" "y1" [] []).trace.all
      (fun c => !dbCallIsMutation c) = true :=
  ⟨rfl,
   ((create_relationship_endpoint_gate (some []) [("y1", "B")] "x1" "R" "y1"
       [] []).1 (Or.inl rfl)).1,
   ((create_relationship_endpoint_gate (some []) [("y1", "B")] "x1" "R" "y1"
       [] []).1 (Or.inl rfl)).2⟩

/-- C7 counterexample: an incoming update differing from the current state
in the property `"Title"` but agreeing on `SemanticAction` and on
`TLChange` truncated to seconds makes `check_updates_novelty` return
`False`, although the incoming change is not identical to the current
state. -/
theorem novelty_check_ignores_other_properties_cex :
    check_updates_novelty
        (some ⟨PyValue.int 1, 100, 0, [("Title", PyValue.str "A")]⟩)
        ⟨PyValue.int 1, 100, 500000, [("Title", PyValue.str "B")]⟩ = false ∧
    (⟨PyValue.int 1, 100, 0, [("Title", PyValue.str "A")]⟩ : ZuState) ≠
      ⟨PyValue.int 1, 100, 500000, [("Title", PyValue.str "B")]⟩ := by
  decide

/-- C7 (amended): `check_updates_novelty` returns `False` exactly when a
current state exists whose `SemanticAction` equals the incoming one and
whose `TLChange`, truncated to whole seconds on both sides, equals the
incoming one; no other property participates in the comparison. -/
theorem novelty_check_characterization :
    ∀ (current_state : Option ZuState) (updates : ZuState),
      check_updates_novelty current_state updates = false ↔
        ∃ cur, current_state = some cur ∧
          cur.semanticAction = updates.semanticAction ∧
          cur.tlSecs = updates.tlSecs := by
  intro cur? upd
  cases cur? with
  | none => simp [check_updates_novelty]
  | some cur =>
      by_cases h1 : cur.semanticAction = upd.semanticAction
      · by_cases h2 : cur.tlSecs = upd.tlSecs
        · simp [check_updates_novelty, neo4j2datetime, h1, h2]
        · simp [check_updates_novelty, neo4j2datetime, h1, h2]
      · simp [check_updates_novelty, neo4j2datetime, h1]

/-- C8 counterexample: the table holds the `"name"` row for entity
`"id1"`; writing the same substring for a different entity `"id2"` under
the same user and tag matches existing rows, fails the replace condition,
and inserts nothing — the table is returned unchanged, although the claim
says the row is inserted. -/
theorem index_add_skips_on_mismatch_cex :
    add_entity [⟨"jack", "id1", 1, "name", "u"⟩] "u" "jack" "id2" "name" =
      [⟨"jack", "id1", 1, "name", "u"⟩] := by
  decide

theorem countP_filter_not {α : Type} (p : α → Bool) (l : List α) :
    (l.filter (fun a => !p a)).countP p = 0 := by
  induction l with
  | nil => rfl
  | cons a rest ih =>
      by_cases h : p a = true
      · simp [List.filter_cons, h, ih]
      · simp [List.filter_cons, h, ih, List.countP_cons]

/-- C8 (amended): in `Index.add_entities`, when no stored row matches
`(substring, tag, user)` the row is inserted; when the first matched row
is a `"name"`-tagged row for the same entity id and the incoming tag is
`"name"`, the matching `(entity id, tag, user)` rows are deleted and the
row re-inserted, leaving exactly one such row; in every other case —
matching rows exist but the replace condition fails — nothing is
written. -/
theorem index_write_path :
    ∀ (table : List IndexRow) (user substr eid tag : String),
      (fts_match table substr tag (pyIdRepl user) = [] →
        add_entity table user substr eid tag =
          table ++ [⟨strToLower substr, pyIdRepl eid, 1, tag, pyIdRepl user⟩]) ∧
      (∀ r0 rest, fts_match table substr tag (pyIdRepl user) = r0 :: rest →
        ((r0.tag == "name" && r0.entity_id == pyIdRepl eid && tag == "name") =
            false →
          add_entity table user substr eid tag = table) ∧
        ((r0.tag == "name" && r0.entity_id == pyIdRepl eid && tag == "name") =
            true →
          (add_entity table user substr eid tag).countP
            (fun r => r.entity_id == pyIdRepl eid && r.tag == tag &&
              r.user_id == pyIdRepl user) = 1)) := by
  intro table user substr eid tag
  constructor
  · intro h
    simp only [add_entity]
    rw [h]
  · intro r0 rest h
    constructor
    · intro hc
      simp only [add_entity]
      rw [h]
      simp [hc]
    · intro hc
      simp only [add_entity]
      rw [h]
      simp only [hc, if_pos]
      rw [List.countP_append, countP_filter_not]
      simp [List.countP_cons]

/-- C8 witness: `index_write_path` at an empty table (plain insert) and at
a table holding the identical `"name"` row (replace, leaving one row). -/
theorem index_write_path_witness :
    fts_match [] "t" "name" (pyIdRepl "u") = [] ∧
    add_entity [] "u" "t" "i1" "name" =
      [] ++ [⟨strToLower "t", pyIdRepl "i1", 1, "name", pyIdRepl "u"⟩] ∧
    (add_entity [⟨"t", "i1", 1, "name", "u"⟩] "u" "t" "i1" "name").countP
      (fun r => r.entity_id == pyIdRepl "i1" && r.tag == "name" &&
        r.user_id == pyIdRepl "u") = 1 :=
  ⟨rfl,
   (index_write_path [] "u" "t" "i1" "name").1 rfl,
   ((index_write_path [⟨"t", "i1", 1, "name", "u"⟩] "u" "t" "i1" "name").2
       ⟨"t", "i1", 1, "name", "u"⟩ [] rfl).2 rfl⟩

/-- C9: `create_entity` appends `"_deleted"` and `False` in place to the
caller's `property_kinds`/`property_values` lists before validating, so
whether validation succeeds or raises afterwards, the caller's lists have
each grown by exactly that element; a `create_relationship` call that
passes relationship validation mutates its
`rel_property_kinds`/`rel_property_values` arguments the same way. -/
theorem create_ops_append_deleted_flag :
    ∀ (tree : Option OntoTree) (known : List String) (kind eid : String)
      (pks : List String) (pvs : List PyValue) (dm : Option DataModel)
      (store : EntityStore) (id_a rk id_b : String) (rpks : List String)
      (rpvs : List PyValue),
      (pks.length = pvs.length → known.contains eid = false →
        (create_entity tree known kind eid pks pvs).1 =
          (pks ++ ["_deleted"], pvs ++ [PyValue.bool false])) ∧
      ((check_relationship_validity dm store id_a rk id_b rpks rpvs).2 =
          Except.ok () →
        (create_relationship dm store id_a rk id_b rpks rpvs).finalPks =
            rpks ++ ["_deleted"] ∧
          (create_relationship dm store id_a rk id_b rpks rpvs).finalPvs =
            rpvs ++ [PyValue.bool false]) := by
  intro tree known kind eid pks pvs dm store ida rk idb rpks rpvs
  constructor
  · intro hlen hfresh
    rw [create_entity, if_neg (fun hc => hc hlen)]
    rw [if_neg (by rw [hfresh]; exact Bool.false_ne_true)]
    cases hc : check_entity_kind_properties_validity tree (pks ++ ["_deleted"])
        (pvs ++ [PyValue.bool false]) kind with
    | error e => simp [hc]
    | ok b => simp [hc]
  · intro hok
    rcases hcv : check_relationship_validity dm store ida rk idb rpks rpvs with
      ⟨tr, res⟩
    rw [hcv] at hok
    simp only at hok
    subst hok
    simp [create_relationship, hcv]

/-- C9 witness: `create_ops_append_deleted_flag` at concrete calls — a
`create_entity` call with a fresh id and a `create_relationship` call that
passes validation both leave the caller's lists grown by
`"_deleted"`/`False`. -/
theorem create_ops_append_deleted_flag_witness :
    (create_entity (some [("K", kindRootProps)]) [] "K" "e9" ["a"]
        [PyValue.int 1]).1 =
      (["a"] ++ ["_deleted"], [PyValue.int 1] ++ [PyValue.bool false]) ∧
    (create_relationship (some [("R9", [("KA", "KB", [])])])
        [("a9", "KA"), ("b9", "KB")] "a9" "R9" "b9" [] []).finalPks =
      ([] ++ ["_deleted"]) ∧
    (create_relationship (some [("R9", [("KA", "KB", [])])])
        [("a9", "KA"), ("b9", "KB")] "a9" "R9" "b9" [] []).finalPvs =
      ([] ++ [PyValue.bool false]) :=
  ⟨(create_ops_append_deleted_flag (some [("K", kindRootProps)]) [] "K" "e9"
       ["a"] [PyValue.int 1] (some [("R9", [("KA", "KB", [])])])
       [("a9", "KA"), ("b9", "KB")] "a9" "R9" "b9" [] []).1 rfl rfl,
   ((create_ops_append_deleted_flag (some [("K", kindRootProps)]) [] "K" "e9"
       ["a"] [PyValue.int 1] (some [("R9", [("KA", "KB", [])])])
       [("a9", "KA"), ("b9", "KB")] "a9" "R9" "b9" [] []).2 rfl).1,
   ((create_ops_append_deleted_flag (some [("K", kindRootProps)]) [] "K" "e9"
       ["a"] [PyValue.int 1] (some [("R9", [("KA", "KB", [])])])
       [("a9", "KA"), ("b9", "KB")] "a9" "R9" "b9" [] []).2 rfl).2⟩

end DeeppavlovKg
